import Mathlib

/-!
Shallow embedding of the session idle-lifecycle coordinator implemented in
the dashboard `UserPanel` component (src/unnamed/part_001).  Times are
naturals counting milliseconds (JavaScript `Date.now()` values); JS falsy
checks on numbers (`!x`) are modelled as equality with zero, and nullable
refs as `Option Nat`.  Each React ref / state pair that the component keeps
in lock-step (`showIdlePrompt` and `idlePromptRef`) is a single field.
-/

namespace BretterLabs

/-- `DEFAULT_IDLE_MINUTES` (part_001 line 23). -/
def DEFAULT_IDLE_MINUTES : Nat := 30

/-- `PROMPT_COUNTDOWN_SECONDS` (part_001 line 24): 5-minute grace period. -/
def PROMPT_COUNTDOWN_SECONDS : Nat := 300

/-- Instance lifecycle status (spec §4.4; values observed from the server). -/
inductive Status where
  | pending | running | stopping | stopped | completed | deleted
deriving DecidableEq, Repr

/-- A template as seen by the panel; `idle_timeout_minutes` is nullable. -/
structure Template where
  id : Nat
  idle_timeout_minutes : Option Nat
deriving DecidableEq, Repr

/-- A VM instance row as returned by `/user/pods`. -/
structure Instance where
  id : Nat
  template_id : Nat
  status : Status
deriving DecidableEq, Repr

/-- The mutable state of the `UserPanel` idle coordinator: React state and
refs of part_001 lines 5-21, plus the session-scoped storage slot and the
scheduled idle timer.  `idleTimer = some (fireAt, arg)` models an armed
`setTimeout(() => startIdleCountdown(arg), fireAt - now)`;
`countdownRunning` models the armed 1-second `setInterval`. -/
structure PanelState where
  templates : List Template
  instances : List Instance
  message : String
  showIdlePrompt : Bool
  idleCountdown : Option Nat
  idleTimer : Option (Nat × Nat)
  countdownRunning : Bool
  countdownEndsAt : Option Nat
  idleStartsAt : Option Nat
  lastActivityAt : Option Nat
  stored : Option Nat
  idleSuspended : Bool
  latestInstanceIds : List Nat
  sessionEnded : Bool
deriving DecidableEq, Repr

/-- Outcome of one axios request: a fulfilled response with its HTTP status,
or a rejected promise whose error optionally carries a response status
(`none` models a network error with no HTTP response). -/
inductive Resp where
  | success (status : Nat)
  | failure (respStatus : Option Nat)
deriving DecidableEq, Repr

/-- An HTTP request issued against the orchestrator API. -/
inductive Req where
  | stopReq (instanceId : Nat)
  | deleteReq (instanceId : Nat)
deriving DecidableEq, Repr

/-- JS `a || b` for a nullable number `a`: `0`, `null` and `undefined` all
fall through to `b`. -/
def jsOr (a : Option Nat) (b : Nat) : Nat :=
  match a with
  | none => b
  | some n => if n = 0 then b else n

/-- JS truthiness of a nullable number. -/
def jsTruthy (a : Option Nat) : Bool :=
  match a with
  | none => false
  | some n => n ≠ 0

/-- `activeInstances` (part_001 lines 44-47): the instances whose status is
`running` or `pending`. -/
def activeInstances (s : PanelState) : List Instance :=
  s.instances.filter (fun i => i.status = Status.running ∨ i.status = Status.pending)

/-- `templateIdleMinutes` (part_001 lines 53-56):
`tmpl?.idle_timeout_minutes || DEFAULT_IDLE_MINUTES` — a missing template,
a missing/null field and a zero field all yield the default. -/
def templateIdleMinutes (s : PanelState) (templateId : Nat) : Nat :=
  match s.templates.find? (fun t => t.id = templateId) with
  | none => DEFAULT_IDLE_MINUTES
  | some t => jsOr t.idle_timeout_minutes DEFAULT_IDLE_MINUTES

/-- `Math.min` over a list, `none` on the empty list. -/
def listMin : List Nat → Option Nat
  | [] => none
  | x :: xs => some (xs.foldl Nat.min x)

/-- `activeIdleMinutes` (part_001 lines 58-61): the minimum resolved idle
timeout across active instances, `null` when none are active. -/
def activeIdleMinutes (s : PanelState) : Option Nat :=
  if activeInstances s = [] then none
  else listMin ((activeInstances s).map (fun i => templateIdleMinutes s i.template_id))

/-- `clearIdleTimers` (part_001 lines 257-270). -/
def clearIdleTimers (s : PanelState) (resetIdleStart : Bool) : PanelState :=
  let s1 := { s with idleTimer := none, countdownRunning := false, countdownEndsAt := none }
  if resetIdleStart then { s1 with idleStartsAt := none } else s1

/-- `clearIdlePrompt` (part_001 lines 272-276). -/
def clearIdlePrompt (s : PanelState) : PanelState :=
  { s with showIdlePrompt := false, idleCountdown := none }

/-- `scheduleIdleTimer` (part_001 lines 278-292): clears any pending timer,
then, unless suspended or `idleStartsAt` is falsy, arms a single timeout for
`max(0, idleStartsAt - now)` ms, i.e. firing at `max now idleStartsAt`,
whose callback is `startIdleCountdown(idleStartsAt)`. -/
def scheduleIdleTimer (s : PanelState) (now : Nat) : PanelState :=
  let s1 := { s with idleTimer := none }
  if s1.idleSuspended then s1
  else if ¬ jsTruthy s1.idleStartsAt then s1
  else
    let t := jsOr s1.idleStartsAt 0
    { s1 with idleTimer := some (Nat.max now t, t) }

/-- `updateIdleStartFromActivity` (part_001 lines 328-333): no-op when
`activeIdleMinutes` is falsy, otherwise
`idleStartsAt := activityAt + Math.max(1, activeIdleMinutes) * 60 * 1000`. -/
def updateIdleStartFromActivity (s : PanelState) (activityAt : Nat) : PanelState :=
  if ¬ jsTruthy (activeIdleMinutes s) then s
  else
    let deadline := activityAt + Nat.max 1 (jsOr (activeIdleMinutes s) 0) * 60 * 1000
    { s with idleStartsAt := some deadline }

/-- `remainingSeconds` computation of `updateCountdown` (part_001 line 302):
`Math.max(0, Math.ceil((endsAt - now) / 1000))`; natural subtraction already
clamps at zero and `(d + 999) / 1000` is the ceiling for `d > 0`. -/
def remainingSeconds (endsAt now : Nat) : Nat :=
  (endsAt - now + 999) / 1000

/-- `isDeleteFailure`: the failure classification inside `deleteInstances`
(part_001 lines 113-122).  A fulfilled response with a truthy status below
400 is success; otherwise the result's `response.status` is consulted and
exactly 404 is accepted as success (a fulfilled response object has no
`response` field, so it falls through to failure). -/
def isDeleteFailure : Resp → Bool
  | Resp.success st => ¬ (st ≠ 0 ∧ st < 400)
  | Resp.failure rst => rst ≠ some 404

/-- `isStopFailure`: the failure classification inside `stopInstances`
(part_001 line 97): `r instanceof Error || r?.response?.status >= 400` —
every rejected request counts as a failure, including a 404. -/
def isStopFailure : Resp → Bool
  | Resp.success _ => false
  | Resp.failure _ => true

/-- `deleteInstances` (part_001 lines 109-136), with the per-id responses
supplied by the environment.  Returns the updated state together with the
delete requests issued (`api.delete` for every id, fired unconditionally
once the list is non-empty).  The trailing `refresh()` re-fetch is outside
the modelled frame. -/
def deleteInstances (s : PanelState) (instanceIds : List Nat) (reason : String)
    (keepMessage : Bool) (resp : Nat → Resp) : PanelState × List Req :=
  if instanceIds = [] then (s, [])
  else
    let reqs := instanceIds.map Req.deleteReq
    let failures := instanceIds.filter (fun id => isDeleteFailure (resp id))
    if failures ≠ [] then
      ({ s with message := "Some idle VMs failed to delete; please check the labs list." }, reqs)
    else if ¬ keepMessage then
      if reason = "idle-timeout" then
        ({ s with message := "Session ended due to inactivity." }, reqs)
      else ({ s with message := "" }, reqs)
    else (s, reqs)

/-- `stopInstances` (part_001 lines 93-107): issues `api.post(.../stop)` for
every id and surfaces a generic failure message when any result is
classified as a failure. -/
def stopInstances (s : PanelState) (instanceIds : List Nat)
    (resp : Nat → Resp) : PanelState × List Req :=
  if instanceIds = [] then (s, [])
  else
    let reqs := instanceIds.map Req.stopReq
    let failures := instanceIds.filter (fun id => isStopFailure (resp id))
    if failures ≠ [] then
      ({ s with message := "Some idle VMs failed to stop; please check the labs list." }, reqs)
    else ({ s with message := "" }, reqs)

/-- `endNow` (part_001 lines 530-536): clears timers and the prompt, marks
the session ended with the reason-dependent message, and delegates to
`deleteInstances` over `latestInstanceIds` with `keepMessage = true`. -/
def endNow (s : PanelState) (auto : Bool) (resp : Nat → Resp) : PanelState × List Req :=
  let s1 := clearIdleTimers s true
  let s2 := clearIdlePrompt s1
  let s3 := { s2 with
      sessionEnded := true,
      message := if auto then "Session ended due to inactivity." else "Session ended." }
  deleteInstances s3 s3.latestInstanceIds (if auto then "idle-timeout" else "user-end") true resp

/-- `updateCountdown` (part_001 lines 294-307): no-op unless the prompt is
active and `countdownEndsAt` is truthy; otherwise publishes the remaining
seconds and, at zero, triggers `endNow(true)`. -/
def updateCountdown (s : PanelState) (now : Nat) (resp : Nat → Resp) :
    PanelState × List Req :=
  if ¬ s.showIdlePrompt then (s, [])
  else if ¬ jsTruthy s.countdownEndsAt then (s, [])
  else
    let e := jsOr s.countdownEndsAt 0
    let r := remainingSeconds e now
    let s1 := { s with idleCountdown := some r }
    if r = 0 then endNow s1 true resp else (s1, [])

/-- `startIdleCountdown` (part_001 lines 309-326): guards on a non-empty id
list, shows the prompt, anchors `countdownEndsAt` at
`(startedAt || idleStartsAt || now) + 300 * 1000`, arms the 1-second
interval and runs one immediate `updateCountdown`. -/
def startIdleCountdown (s : PanelState) (startedAt : Option Nat)
    (instanceIds : List Nat) (now : Nat) (resp : Nat → Resp) :
    PanelState × List Req :=
  if instanceIds = [] then (s, [])
  else
    let s1 := { s with
        latestInstanceIds := instanceIds,
        showIdlePrompt := true,
        sessionEnded := false }
    let baseline := jsOr startedAt (jsOr s1.idleStartsAt now)
    let e := baseline + PROMPT_COUNTDOWN_SECONDS * 1000
    let s2 := { s1 with
        countdownEndsAt := some e,
        idleCountdown := some (remainingSeconds e now),
        countdownRunning := true }
    updateCountdown s2 now resp

/-- `ensureActivityTimestamp` (part_001 lines 335-346): returns the cached
truthy `lastActivityAt` if any, otherwise adopts the stored timestamp (or
`now` when storage is empty/falsy, writing it back in that case). -/
def ensureActivityTimestamp (s : PanelState) (now : Nat) : PanelState × Nat :=
  if jsTruthy s.lastActivityAt then (s, jsOr s.lastActivityAt 0)
  else
    let fallback := jsOr s.stored now
    let s1 := { s with lastActivityAt := some fallback }
    let s2 := if jsTruthy s.stored then s1 else { s1 with stored := some fallback }
    (s2, fallback)

/-- `recordActivity` (part_001 lines 348-366): bails out while suspended,
while the prompt is active, or with no active instances / falsy
`activeIdleMinutes`; otherwise stamps `lastActivityAt`, persists it,
recomputes the deadline and reschedules the single idle timer.  (The
follow-up broadcast to console windows carries no coordinator state.) -/
def recordActivity (s : PanelState) (timestamp : Option Nat) (now : Nat) : PanelState :=
  if s.idleSuspended then s
  else if s.showIdlePrompt then s
  else if activeInstances s = [] ∨ ¬ jsTruthy (activeIdleMinutes s) then s
  else
    let ts := jsOr timestamp now
    let s1 := { s with lastActivityAt := some ts, stored := some ts }
    let s2 := updateIdleStartFromActivity s1 ts
    scheduleIdleTimer s2 now

/-- `suspendIdle` (part_001 lines 376-386): marks the idle clock suspended,
clears timers and the prompt, and (for a truthy timestamp) stamps and
persists the activity time and recomputes the deadline. -/
def suspendIdle (s : PanelState) (timestamp : Nat) : PanelState :=
  let s1 := { s with idleSuspended := true }
  let s2 := clearIdleTimers s1 true
  let s3 := clearIdlePrompt s2
  let s4 := { s3 with sessionEnded := false }
  if timestamp ≠ 0 then
    let s5 := { s4 with lastActivityAt := some timestamp, stored := some timestamp }
    updateIdleStartFromActivity s5 timestamp
  else s4

/-- `resumeIdle` (part_001 lines 388-398): lifts suspension and, when active
instances remain, anchors the new deadline at the blur timestamp (or `now`)
plus the minimum idle timeout, rescheduling the timer. -/
def resumeIdle (s : PanelState) (timestamp : Option Nat) (now : Nat) : PanelState :=
  let s1 := { s with idleSuspended := false }
  if activeInstances s1 = [] ∨ ¬ jsTruthy (activeIdleMinutes s1) then s1
  else
    let ts := jsOr timestamp now
    let s2 := { s1 with lastActivityAt := some ts, stored := some ts }
    let s3 := updateIdleStartFromActivity s2 ts
    scheduleIdleTimer s3 now

/-- `handleExternalActivity` (part_001 lines 368-374): a console-reported
activity burst suspends the idle clock at that timestamp. -/
def handleExternalActivity (s : PanelState) (timestamp : Option Nat) (now : Nat) : PanelState :=
  if activeInstances s = [] ∨ ¬ jsTruthy (activeIdleMinutes s) then s
  else suspendIdle s (jsOr timestamp now)

/-- `syncIdleState` (part_001 lines 400-425). -/
def syncIdleState (s : PanelState) (now : Nat) (resp : Nat → Resp) :
    PanelState × List Req :=
  if s.idleSuspended then
    (clearIdlePrompt (clearIdleTimers s false), [])
  else if s.showIdlePrompt then
    updateCountdown s now resp
  else if activeInstances s = [] ∨ ¬ jsTruthy (activeIdleMinutes s) then
    let s1 := clearIdlePrompt (clearIdleTimers s true)
    ({ s1 with lastActivityAt := none, stored := none }, [])
  else
    let (s1, activityAt) := ensureActivityTimestamp s now
    let s2 := updateIdleStartFromActivity s1 activityAt
    if jsTruthy s2.idleStartsAt ∧ jsOr s2.idleStartsAt 0 ≤ now then
      startIdleCountdown s2 s2.idleStartsAt s2.latestInstanceIds now resp
    else
      (scheduleIdleTimer s2 now, [])

/-- `continueSession` (part_001 lines 522-528): clears the prompt and the
suspension flag, then records fresh activity (the trailing `refresh()` is
outside the modelled frame). -/
def continueSession (s : PanelState) (now : Nat) : PanelState :=
  let s1 := clearIdlePrompt s
  let s2 := { s1 with sessionEnded := false, idleSuspended := false }
  recordActivity s2 none now

/-- Inbound `postMessage` payloads recognized by the dashboard handler
(part_001 lines 487-516).  A `none` timestamp models a payload whose
`timestamp` fails the `Number.isFinite` check. -/
inductive InMsg where
  | idleFocus (source : String) (timestamp : Option Nat)
  | idleBlur (source : String) (timestamp : Option Nat)
  | idleActivity (source : String) (timestamp : Option Nat)
  | handshakeAck (source : String) (instanceId : Option Nat)
  | idleStop (instanceId : Option Nat) (action : String) (reason : String)
  | other

/-- `Number.isFinite(payload.timestamp) ? payload.timestamp : Date.now()`. -/
def finOr (ts : Option Nat) (now : Nat) : Nat :=
  match ts with
  | some t => t
  | none => now

/-- `handleMessage` (part_001 lines 487-516): console-tagged (`source =
"vm"`) focus/blur/activity messages drive suspend/resume, a handshake ack
only stops the (unmodelled) handshake interval, and `idle-stop` relays a
termination request.  Messages with the wrong source tag are ignored. -/
def handleMessage (s : PanelState) (m : InMsg) (now : Nat) (resp : Nat → Resp) :
    PanelState × List Req :=
  match m with
  | InMsg.idleFocus src ts =>
      if src = "vm" then (suspendIdle s (finOr ts now), []) else (s, [])
  | InMsg.idleBlur src ts =>
      if src = "vm" then (resumeIdle s (some (finOr ts now)) now, []) else (s, [])
  | InMsg.idleActivity src ts =>
      if src = "vm" then (handleExternalActivity s (some (finOr ts now)) now, []) else (s, [])
  | InMsg.handshakeAck _ _ => (s, [])
  | InMsg.idleStop iid action reason =>
      match iid with
      | none => (s, [])
      | some id =>
          if id = 0 then (s, [])
          else if action = "delete" then deleteInstances s [id] reason false resp
          else stopInstances s [id] resp
  | InMsg.other => (s, [])

/-- `onActivity` (part_001 lines 435-458): the handler registered for the
dashboard's own pointer-move / key-down / pointer-down / touch-start /
scroll signals.  It bails out while the page is hidden or with no active
instances; a signal while suspended lifts the suspension and records
activity; otherwise, if the deadline recomputed from the remembered (or
stored) activity timestamp has already passed, it re-enters the countdown
anchored at that deadline, and else records fresh activity. -/
def onActivity (s : PanelState) (hidden : Bool) (now : Nat) (resp : Nat → Resp) :
    PanelState × List Req :=
  if hidden then (s, [])
  else if activeInstances s = [] ∨ ¬ jsTruthy (activeIdleMinutes s) then (s, [])
  else if s.idleSuspended then
    (recordActivity { s with idleSuspended := false } (some now) now, [])
  else
    let lastActivity := if jsTruthy s.lastActivityAt then s.lastActivityAt else s.stored
    if jsTruthy lastActivity then
      let idleStart :=
        jsOr lastActivity 0 + Nat.max 1 (jsOr (activeIdleMinutes s) 0) * 60 * 1000
      if idleStart ≤ now then
        startIdleCountdown { s with idleStartsAt := some idleStart } (some idleStart)
          s.latestInstanceIds now resp
      else (recordActivity s none now, [])
    else (recordActivity s none now, [])

/-- `onFocus` (part_001 lines 459-464): dashboard window focus lifts the
suspension, records activity and re-syncs the idle state (the focus
broadcast to console windows carries no coordinator state). -/
def onFocus (s : PanelState) (now : Nat) (resp : Nat → Resp) : PanelState × List Req :=
  let s1 := { s with idleSuspended := false }
  let s2 := recordActivity s1 none now
  syncIdleState s2 now resp

/-- The discrete events the dashboard context reacts to: the single idle
timeout firing, a countdown interval tick, an inbound message, a
`syncIdleState` pass (visibility change / effect re-run), a dashboard-local
qualifying activity signal, and dashboard window focus/blur (part_001 lines
427-485).  Each carries the wall-clock time at which it runs. -/
inductive Event where
  | timerFire (now : Nat) (resp : Nat → Resp)
  | countdownTick (now : Nat) (resp : Nat → Resp)
  | message (m : InMsg) (now : Nat) (resp : Nat → Resp)
  | syncEvent (now : Nat) (resp : Nat → Resp)
  | localActivity (hidden : Bool) (now : Nat) (resp : Nat → Resp)
  | dashboardFocus (now : Nat) (resp : Nat → Resp)
  | dashboardBlur (now : Nat)

/-- One reaction step of the dashboard context.  A `timerFire` with no armed
timer and a `countdownTick` with no armed interval are stale-timer no-ops;
dashboard blur only broadcasts to console windows, leaving coordinator state
untouched (part_001 lines 465-467). -/
def step (s : PanelState) (e : Event) : PanelState :=
  match e with
  | Event.timerFire now resp =>
      match s.idleTimer with
      | none => s
      | some (_, arg) =>
          (startIdleCountdown { s with idleTimer := none } (some arg)
            s.latestInstanceIds now resp).1
  | Event.countdownTick now resp =>
      if s.countdownRunning then (updateCountdown s now resp).1 else s
  | Event.message m now resp => (handleMessage s m now resp).1
  | Event.syncEvent now resp => (syncIdleState s now resp).1
  | Event.localActivity hidden now resp => (onActivity s hidden now resp).1
  | Event.dashboardFocus now resp => (onFocus s now resp).1
  | Event.dashboardBlur _ => s

/-- Run a sequence of reaction steps. -/
def stepAll (s : PanelState) (evs : List Event) : PanelState :=
  evs.foldl step s

/-- Whether an event is a console (`source = "vm"`) blur message. -/
def isVmBlurEvent : Event → Bool
  | Event.message (InMsg.idleBlur src _) _ _ => src = "vm"
  | _ => false

/-- Whether an event is a dashboard-local user event that lifts the
suspension without any console blur: a qualifying activity signal while the
page is visible, or dashboard window focus. -/
def isDashboardWake : Event → Bool
  | Event.localActivity hidden _ _ => !hidden
  | Event.dashboardFocus _ _ => true
  | _ => false

/-- Sample template with a 30-minute idle timeout. -/
def tmplA : Template := { id := 1, idle_timeout_minutes := some 30 }

/-- Sample template with a 10-minute idle timeout. -/
def tmplB : Template := { id := 2, idle_timeout_minutes := some 10 }

/-- Sample running instance of `tmplA`. -/
def instA : Instance := { id := 11, template_id := 1, status := Status.running }

/-- Sample pending instance of `tmplB`. -/
def instB : Instance := { id := 12, template_id := 2, status := Status.pending }

/-- A quiescent panel with one running and one pending instance. -/
def sample0 : PanelState :=
  { templates := [tmplA, tmplB], instances := [instA, instB], message := "",
    showIdlePrompt := false, idleCountdown := none, idleTimer := none,
    countdownRunning := false, countdownEndsAt := none, idleStartsAt := none,
    lastActivityAt := none, stored := none, idleSuspended := false,
    latestInstanceIds := [11, 12], sessionEnded := false }

/-- A panel showing the idle prompt while the active-instance list has
drained to empty. -/
def promptNoActive : PanelState :=
  { sample0 with
    instances := [], showIdlePrompt := true,
    countdownRunning := true, countdownEndsAt := some 301000,
    idleCountdown := some 42, lastActivityAt := some 1000 }

/-- A freshly reloaded panel: no in-memory activity timestamp, but a stored
one from before the reload. -/
def reloaded : PanelState :=
  { sample0 with stored := some 60000 }

/-- A panel with the idle prompt active over a non-empty active set, its
deadline and countdown end consistent with the current 10-minute minimum
(last activity t=5000, deadline 605000, countdown end 905000). -/
def promptWithActive : PanelState :=
  { sample0 with
    showIdlePrompt := true, idleCountdown := some 100, countdownRunning := true,
    idleStartsAt := some 605000, countdownEndsAt := some 905000,
    lastActivityAt := some 5000, stored := some 5000 }

/-- A panel whose prompt was started while the active minimum was 30
minutes (deadline 1801000, countdown end 2101000), after which the pending
10-minute instance joined the active set — so the remembered deadline is
stale with respect to the current minimum. -/
def promptStale : PanelState :=
  { sample0 with
    showIdlePrompt := true, idleCountdown := some 100, countdownRunning := true,
    idleStartsAt := some 1801000, countdownEndsAt := some 2101000,
    lastActivityAt := some 1000, stored := some 1000 }

/-- Environment where every request succeeds with HTTP 200. -/
def respOk : Nat → Resp := fun _ => Resp.success 200

/-- Environment where every request is rejected with HTTP 404. -/
def resp404 : Nat → Resp := fun _ => Resp.failure (some 404)

/-- The resolved idle timeouts of the currently active instances. -/
def idleTimeouts (s : PanelState) : List Nat :=
  (activeInstances s).map (fun i => templateIdleMinutes s i.template_id)

/-- The suspended regime: the idle clock is paused, the prompt is hidden and
no idle timeout is armed. -/
def suspendedQuiet (s : PanelState) : Prop :=
  s.idleSuspended = true ∧ s.showIdlePrompt = false ∧ s.idleTimer = none

end BretterLabs

namespace BretterLabs

theorem jsTruthy_of_pos {n : Nat} (h : 1 ≤ n) : jsTruthy (some n) = true := by
  simp [jsTruthy]; omega

theorem one_le_jsOrDefault (o : Option Nat) : 1 ≤ jsOr o DEFAULT_IDLE_MINUTES := by
  cases o with
  | none => decide
  | some n =>
      by_cases h : n = 0
      · subst h; decide
      · simp only [jsOr, if_neg h]
        omega

theorem one_le_templateIdleMinutes (s : PanelState) (tid : Nat) :
    1 ≤ templateIdleMinutes s tid := by
  rcases hf : s.templates.find? (fun t => t.id = tid) with _ | t
  · simp only [templateIdleMinutes, hf]
    decide
  · simp only [templateIdleMinutes, hf]
    exact one_le_jsOrDefault t.idle_timeout_minutes

theorem foldl_min_le_init (xs : List Nat) (x : Nat) : xs.foldl Nat.min x ≤ x := by
  induction xs generalizing x with
  | nil => simp
  | cons y ys ih =>
      simp only [List.foldl_cons]
      exact le_trans (ih (Nat.min x y)) (Nat.min_le_left x y)

theorem foldl_min_le_mem (xs : List Nat) (x y : Nat) (hy : y ∈ xs) :
    xs.foldl Nat.min x ≤ y := by
  induction xs generalizing x with
  | nil => cases hy
  | cons z zs ih =>
      simp only [List.foldl_cons]
      rcases List.mem_cons.mp hy with h | h
      · subst h
        exact le_trans (foldl_min_le_init zs (Nat.min x y)) (Nat.min_le_right x y)
      · exact ih (Nat.min x z) h

theorem foldl_min_mem (xs : List Nat) (x : Nat) :
    xs.foldl Nat.min x = x ∨ xs.foldl Nat.min x ∈ xs := by
  induction xs generalizing x with
  | nil => left; rfl
  | cons y ys ih =>
      simp only [List.foldl_cons]
      rcases ih (Nat.min x y) with h | h
      · rw [h]
        rcases Nat.le_total x y with h1 | h1
        · left; exact Nat.min_eq_left h1
        · right
          rw [show Nat.min x y = y from Nat.min_eq_right h1]
          exact List.mem_cons_self y ys
      · right; exact List.mem_cons_of_mem y h

theorem listMin_spec (xs : List Nat) (m : Nat) (h : listMin xs = some m) :
    m ∈ xs ∧ ∀ y ∈ xs, m ≤ y := by
  cases xs with
  | nil => cases h
  | cons x ys =>
      simp only [listMin, Option.some.injEq] at h
      subst h
      constructor
      · rcases foldl_min_mem ys x with h | h
        · rw [h]; exact List.mem_cons_self x ys
        · exact List.mem_cons_of_mem x h
      · intro y hy
        rcases List.mem_cons.mp hy with h | h
        · subst h; exact foldl_min_le_init ys y
        · exact foldl_min_le_mem ys x y h

theorem activeIdleMinutes_spec (s : PanelState) (h : activeInstances s ≠ []) :
    ∃ m, activeIdleMinutes s = some m ∧ 1 ≤ m ∧ m ∈ idleTimeouts s ∧
      ∀ t ∈ idleTimeouts s, m ≤ t := by
  have hmap : idleTimeouts s ≠ [] := by
    simpa [idleTimeouts] using h
  obtain ⟨m, hm⟩ : ∃ m, listMin (idleTimeouts s) = some m := by
    cases hxs : idleTimeouts s with
    | nil => exact absurd hxs hmap
    | cons x ys => exact ⟨ys.foldl Nat.min x, rfl⟩
  obtain ⟨hmem, hle⟩ := listMin_spec _ _ hm
  refine ⟨m, ?_, ?_, hmem, hle⟩
  · simp only [activeIdleMinutes, if_neg h]
    exact hm
  · obtain ⟨i, _, hi⟩ := List.mem_map.mp hmem
    calc 1 ≤ templateIdleMinutes s i.template_id := one_le_templateIdleMinutes s i.template_id
    _ = m := hi

theorem activeIdleMinutes_pos (s : PanelState) (m : Nat)
    (h : activeIdleMinutes s = some m) : 1 ≤ m := by
  by_cases hact : activeInstances s = []
  · simp [activeIdleMinutes, hact] at h
  · obtain ⟨m2, hm2, h1, _, _⟩ := activeIdleMinutes_spec s hact
    rw [h, Option.some_inj] at hm2
    omega

theorem updateCountdown_not_shown (s : PanelState) (now : Nat) (resp : Nat → Resp)
    (h : s.showIdlePrompt = false) : updateCountdown s now resp = (s, []) := by
  simp [updateCountdown, h]

theorem deleteInstances_requests (s : PanelState) (ids : List Nat) (reason : String)
    (keep : Bool) (resp : Nat → Resp) :
    (deleteInstances s ids reason keep resp).2 = ids.map Req.deleteReq := by
  unfold deleteInstances
  by_cases hids : ids = []
  · simp [hids]
  · rw [if_neg hids]
    dsimp only
    split
    · rfl
    · split
      · split <;> rfl
      · rfl

theorem endNow_requests (s : PanelState) (auto : Bool) (resp : Nat → Resp) :
    (endNow s auto resp).2 = s.latestInstanceIds.map Req.deleteReq := by
  unfold endNow
  rw [deleteInstances_requests]
  rfl

theorem ceil_thousand (d : Nat) : (d * 1000 + 999) / 1000 = d := by
  rw [Nat.mul_comm, Nat.mul_add_div (by norm_num)]
  norm_num

theorem remainingSeconds_diff (e now : Nat) (d : Nat) (h : e - now = d * 1000) :
    remainingSeconds e now = d := by
  unfold remainingSeconds
  rw [h, ceil_thousand]

theorem remainingSeconds_pos (e now : Nat) (h : now < e) :
    remainingSeconds e now ≠ 0 := by
  unfold remainingSeconds
  have h1 : 1000 ≤ e - now + 999 := by omega
  have h2 := Nat.div_le_div_right (c := 1000) h1
  simp at h2
  omega

theorem remainingSeconds_zero (e now : Nat) (h : e ≤ now) :
    remainingSeconds e now = 0 := by
  unfold remainingSeconds
  have h1 : e - now = 0 := by omega
  rw [h1]

theorem updateIdleStart_cases (s : PanelState) (a : Nat) :
    updateIdleStartFromActivity s a = s ∨
    updateIdleStartFromActivity s a =
      { s with
        idleStartsAt := some (a + Nat.max 1 (jsOr (activeIdleMinutes s) 0) * 60 * 1000) } := by
  unfold updateIdleStartFromActivity
  split
  · exact Or.inl rfl
  · exact Or.inr rfl

theorem scheduleIdleTimer_cases (s : PanelState) (now : Nat) :
    ∃ t, scheduleIdleTimer s now = { s with idleTimer := t } := by
  unfold scheduleIdleTimer
  dsimp only
  split
  · exact ⟨none, rfl⟩
  · split
    · exact ⟨none, rfl⟩
    · exact ⟨some (Nat.max now (jsOr s.idleStartsAt 0), jsOr s.idleStartsAt 0), rfl⟩

theorem suspendIdle_quiet (s : PanelState) (t : Nat) :
    suspendedQuiet (suspendIdle s t) := by
  unfold suspendedQuiet suspendIdle clearIdleTimers clearIdlePrompt updateIdleStartFromActivity
  dsimp only
  split_ifs <;> exact ⟨rfl, rfl, rfl⟩

theorem deleteInstances_quietFields (s : PanelState) (ids : List Nat)
    (reason : String) (keep : Bool) (resp : Nat → Resp) :
    (deleteInstances s ids reason keep resp).1.idleSuspended = s.idleSuspended ∧
    (deleteInstances s ids reason keep resp).1.showIdlePrompt = s.showIdlePrompt ∧
    (deleteInstances s ids reason keep resp).1.idleTimer = s.idleTimer := by
  unfold deleteInstances
  split
  · exact ⟨rfl, rfl, rfl⟩
  · dsimp only
    split
    · exact ⟨rfl, rfl, rfl⟩
    · split
      · split
        · exact ⟨rfl, rfl, rfl⟩
        · exact ⟨rfl, rfl, rfl⟩
      · exact ⟨rfl, rfl, rfl⟩

theorem stopInstances_quietFields (s : PanelState) (ids : List Nat)
    (resp : Nat → Resp) :
    (stopInstances s ids resp).1.idleSuspended = s.idleSuspended ∧
    (stopInstances s ids resp).1.showIdlePrompt = s.showIdlePrompt ∧
    (stopInstances s ids resp).1.idleTimer = s.idleTimer := by
  unfold stopInstances
  split
  · exact ⟨rfl, rfl, rfl⟩
  · dsimp only
    split
    · exact ⟨rfl, rfl, rfl⟩
    · exact ⟨rfl, rfl, rfl⟩

theorem step_preserves_quiet (s : PanelState) (e : Event)
    (hq : suspendedQuiet s) (hnb : isVmBlurEvent e = false)
    (hnw : isDashboardWake e = false) :
    suspendedQuiet (step s e) := by
  obtain ⟨hsus, hpr, htmr⟩ := hq
  cases e with
  | timerFire now resp =>
      simp only [step, htmr]
      exact ⟨hsus, hpr, htmr⟩
  | countdownTick now resp =>
      simp only [step]
      split
      · rw [updateCountdown_not_shown _ _ _ hpr]
        exact ⟨hsus, hpr, htmr⟩
      · exact ⟨hsus, hpr, htmr⟩
  | message m now resp =>
      cases m with
      | idleFocus src ts =>
          simp only [step, handleMessage]
          split
          · exact suspendIdle_quiet _ _
          · exact ⟨hsus, hpr, htmr⟩
      | idleBlur src ts =>
          simp only [isVmBlurEvent, decide_eq_false_iff_not] at hnb
          simp only [step, handleMessage, if_neg hnb]
          exact ⟨hsus, hpr, htmr⟩
      | idleActivity src ts =>
          simp only [step, handleMessage]
          split
          · unfold handleExternalActivity
            split
            · exact ⟨hsus, hpr, htmr⟩
            · exact suspendIdle_quiet _ _
          · exact ⟨hsus, hpr, htmr⟩
      | handshakeAck src iid =>
          exact ⟨hsus, hpr, htmr⟩
      | idleStop iid action reason =>
          cases iid with
          | none => exact ⟨hsus, hpr, htmr⟩
          | some id =>
              simp only [step, handleMessage]
              split
              · exact ⟨hsus, hpr, htmr⟩
              · split
                · obtain ⟨h1, h2, h3⟩ := deleteInstances_quietFields s [id] reason false resp
                  exact ⟨h1.trans hsus, h2.trans hpr, h3.trans htmr⟩
                · obtain ⟨h1, h2, h3⟩ := stopInstances_quietFields s [id] resp
                  exact ⟨h1.trans hsus, h2.trans hpr, h3.trans htmr⟩
      | other => exact ⟨hsus, hpr, htmr⟩
  | syncEvent now resp =>
      simp only [step, syncIdleState, hsus, if_pos]
      unfold clearIdleTimers clearIdlePrompt
      exact ⟨hsus, rfl, rfl⟩
  | localActivity hidden now resp =>
      have hh : hidden = true := by simpa [isDashboardWake] using hnw
      subst hh
      show suspendedQuiet (onActivity s true now resp).1
      unfold onActivity
      rw [if_pos rfl]
      exact ⟨hsus, hpr, htmr⟩
  | dashboardFocus now resp =>
      simp [isDashboardWake] at hnw
  | dashboardBlur now =>
      exact ⟨hsus, hpr, htmr⟩

theorem stepAll_preserves_quiet (s : PanelState) (evs : List Event)
    (hq : suspendedQuiet s)
    (hnb : ∀ e ∈ evs, isVmBlurEvent e = false ∧ isDashboardWake e = false) :
    suspendedQuiet (stepAll s evs) := by
  induction evs generalizing s with
  | nil => exact hq
  | cons e es ih =>
      exact ih (step s e)
        (step_preserves_quiet s e hq (hnb e (List.mem_cons_self e es)).1
          (hnb e (List.mem_cons_self e es)).2)
        (fun e2 he2 => hnb e2 (List.mem_cons_of_mem e he2))

/-- C6: contrary to the claim, `stopInstances` classifies a rejected stop
request carrying HTTP 404 as a failure (`r instanceof Error` is true for an
axios error regardless of status) and surfaces the generic failure message —
unlike `deleteInstances`, which accepts 404 as already-deleted success. -/
theorem stop_404_counted_as_failure :
    isStopFailure (Resp.failure (some 404)) = true ∧
    isDeleteFailure (Resp.failure (some 404)) = false ∧
    (stopInstances sample0 [11] resp404).1.message
      = "Some idle VMs failed to stop; please check the labs list." := by
  exact ⟨rfl, rfl, rfl⟩

/-- C7: `endNow` issues exactly one delete per tracked session id, the same
requests whether the reason is idle-timeout (`auto = true`) or user-end
(`auto = false`); the two resulting states can differ only in the
user-visible `message` field. -/
theorem end_reason_messaging_only (s : PanelState) (resp : Nat → Resp) :
    (endNow s true resp).2 = (endNow s false resp).2 ∧
    (endNow s true resp).2 = s.latestInstanceIds.map Req.deleteReq ∧
    { (endNow s true resp).1 with message := "" }
      = { (endNow s false resp).1 with message := "" } := by
  refine ⟨?_, endNow_requests s true resp, ?_⟩
  · rw [endNow_requests, endNow_requests]
  · unfold endNow deleteInstances clearIdleTimers clearIdlePrompt
    dsimp only
    split_ifs <;> rfl

/-- C9: a missing template, a missing/null `idle_timeout_minutes` and a zero
value all resolve to the 30-minute default; every resolved timeout is at
least one minute; and the deadline offset applies `Math.max(1, ·)` to the
minimum over active sessions, so the deadline is at least one minute after
the activity timestamp. -/
theorem effective_timeout_floor (s : PanelState) (tid : Nat) (t : Template)
    (activityAt m : Nat) :
    (s.templates.find? (fun tp => tp.id = tid) = none →
      templateIdleMinutes s tid = 30) ∧
    (s.templates.find? (fun tp => tp.id = tid) = some t →
      (t.idle_timeout_minutes = none ∨ t.idle_timeout_minutes = some 0) →
      templateIdleMinutes s tid = 30) ∧
    1 ≤ templateIdleMinutes s tid ∧
    (activeIdleMinutes s = some m →
      1 ≤ m ∧
      (updateIdleStartFromActivity s activityAt).idleStartsAt
        = some (activityAt + Nat.max 1 m * 60 * 1000) ∧
      activityAt + 60 * 1000 ≤ activityAt + Nat.max 1 m * 60 * 1000) := by
  refine ⟨?_, ?_, one_le_templateIdleMinutes s tid, ?_⟩
  · intro h
    simp only [templateIdleMinutes, h]
    rfl
  · intro h hz
    simp only [templateIdleMinutes, h]
    rcases hz with hz | hz <;> rw [hz] <;> rfl
  · intro hm
    have h1 := activeIdleMinutes_pos s m hm
    have hne : m ≠ 0 := by omega
    have htr : jsTruthy (activeIdleMinutes s) = true := by
      rw [hm]; exact jsTruthy_of_pos h1
    refine ⟨h1, ?_, ?_⟩
    · simp only [updateIdleStartFromActivity, htr, not_true_eq_false, if_false]
      simp [hm, jsOr, hne]
    · have hmax : 1 * (60 * 1000) ≤ Nat.max 1 m * (60 * 1000) :=
        Nat.mul_le_mul_right _ (Nat.le_max_left 1 m)
      omega

/-- C10: the tracked active set is exactly the instances whose status is
`running` or `pending`; a pending instance contributes its resolved timeout
to the minimum; `stopping`/`stopped`/`completed`/`deleted` instances are
excluded; and, with the tracked id list synced to the active set, `endNow`
issues exactly one delete per active instance. -/
theorem tracked_set_running_pending (s : PanelState) (i : Instance)
    (auto : Bool) (resp : Nat → Resp) :
    (i ∈ activeInstances s ↔
      i ∈ s.instances ∧ (i.status = Status.running ∨ i.status = Status.pending)) ∧
    (i ∈ s.instances → i.status = Status.pending →
      ∃ m, activeIdleMinutes s = some m ∧ 1 ≤ m ∧
        m ≤ templateIdleMinutes s i.template_id) ∧
    ((i.status = Status.stopping ∨ i.status = Status.stopped ∨
      i.status = Status.completed ∨ i.status = Status.deleted) →
      i ∉ activeInstances s) ∧
    (s.latestInstanceIds = (activeInstances s).map Instance.id →
      (endNow s auto resp).2 = ((activeInstances s).map Instance.id).map Req.deleteReq) := by
  have hmem : i ∈ activeInstances s ↔
      i ∈ s.instances ∧ (i.status = Status.running ∨ i.status = Status.pending) := by
    simp [activeInstances, List.mem_filter]
  refine ⟨hmem, ?_, ?_, ?_⟩
  · intro hi hp
    have hin : i ∈ activeInstances s := hmem.mpr ⟨hi, Or.inr hp⟩
    have hne : activeInstances s ≠ [] := List.ne_nil_of_mem hin
    obtain ⟨m, hm, h1, _, hle⟩ := activeIdleMinutes_spec s hne
    refine ⟨m, hm, h1, ?_⟩
    apply hle
    exact List.mem_map_of_mem (fun j => templateIdleMinutes s j.template_id) hin
  · intro hst hin
    have := (hmem.mp hin).2
    rcases hst with h | h | h | h <;> rcases this with h2 | h2 <;> rw [h] at h2 <;> cases h2
  · intro h
    rw [endNow_requests, h]

theorem recordActivity_bail (s : PanelState) (ts : Option Nat) (now : Nat)
    (h : activeInstances s = []) : recordActivity s ts now = s := by
  unfold recordActivity
  split
  · rfl
  · split
    · rfl
    · rw [if_pos (Or.inl h)]

theorem recordActivity_not_blocked (s : PanelState) (ts : Option Nat) (now : Nat)
    (hs : s.idleSuspended = false) (hp : s.showIdlePrompt = false)
    (hact : activeInstances s ≠ []) :
    (recordActivity s ts now).lastActivityAt = some (jsOr ts now) ∧
    (recordActivity s ts now).stored = some (jsOr ts now) ∧
    (recordActivity s ts now).showIdlePrompt = false ∧
    (recordActivity s ts now).idleSuspended = false := by
  obtain ⟨m, hm, h1, _, _⟩ := activeIdleMinutes_spec s hact
  have htr : jsTruthy (activeIdleMinutes s) = true := by
    rw [hm]; exact jsTruthy_of_pos h1
  unfold recordActivity
  rw [if_neg (by simp [hs]), if_neg (by simp [hp]), if_neg (by simp [hact, htr])]
  dsimp only
  obtain h2 | h2 := updateIdleStart_cases
    { s with lastActivityAt := some (jsOr ts now), stored := some (jsOr ts now) } (jsOr ts now)
  · rw [h2]
    obtain ⟨tm, h3⟩ := scheduleIdleTimer_cases _ now
    rw [h3]
    exact ⟨rfl, rfl, hp, hs⟩
  · rw [h2]
    obtain ⟨tm, h3⟩ := scheduleIdleTimer_cases _ now
    rw [h3]
    exact ⟨rfl, rfl, hp, hs⟩

theorem recordActivity_char (s : PanelState) (ts : Option Nat) (now : Nat)
    (hs : s.idleSuspended = false) (hp : s.showIdlePrompt = false) :
    (recordActivity s ts now).showIdlePrompt = false ∧
    (recordActivity s ts now).idleSuspended = false ∧
    (activeInstances s ≠ [] →
      (recordActivity s ts now).lastActivityAt = some (jsOr ts now)) := by
  by_cases hact : activeInstances s = []
  · rw [recordActivity_bail s ts now hact]
    exact ⟨hp, hs, fun h => absurd hact h⟩
  · obtain ⟨hla, _, hsh, hsu⟩ := recordActivity_not_blocked s ts now hs hp hact
    exact ⟨hsh, hsu, fun _ => hla⟩

theorem recordActivity_prompt_noop (s : PanelState) (ts : Option Nat) (now : Nat)
    (hp : s.showIdlePrompt = true) : recordActivity s ts now = s := by
  by_cases hs : s.idleSuspended
  · simp [recordActivity, hs]
  · simp [recordActivity, hs, hp]

theorem deleteInstances_noFail_keep (s : PanelState) (ids : List Nat)
    (reason : String) (resp : Nat → Resp)
    (h : ∀ id ∈ ids, isDeleteFailure (resp id) = false) :
    deleteInstances s ids reason true resp = (s, ids.map Req.deleteReq) := by
  unfold deleteInstances
  by_cases hids : ids = []
  · subst hids; simp
  · rw [if_neg hids]
    dsimp only
    have hf : ids.filter (fun id => isDeleteFailure (resp id)) = [] := by
      rw [List.filter_eq_nil_iff]
      intro a ha
      simp [h a ha]
    rw [hf]
    simp

theorem clearIdleTimers_true (s : PanelState) :
    clearIdleTimers s true =
      { s with
        idleTimer := none, countdownRunning := false, countdownEndsAt := none,
        idleStartsAt := none } := rfl

theorem clearIdlePrompt_eq (s : PanelState) :
    clearIdlePrompt s = { s with showIdlePrompt := false, idleCountdown := none } := rfl

theorem endNow_noFail (s : PanelState) (auto : Bool) (resp : Nat → Resp)
    (h : ∀ id ∈ s.latestInstanceIds, isDeleteFailure (resp id) = false) :
    endNow s auto resp =
      ({ s with
          showIdlePrompt := false, idleCountdown := none, idleTimer := none,
          countdownRunning := false, countdownEndsAt := none, idleStartsAt := none,
          sessionEnded := true,
          message := if auto then "Session ended due to inactivity." else "Session ended." },
        s.latestInstanceIds.map Req.deleteReq) := by
  unfold endNow
  dsimp only
  rw [clearIdleTimers_true, clearIdlePrompt_eq]
  dsimp only
  rw [deleteInstances_noFail_keep _ _ _ _ h]

/-- C5: a delete answered with HTTP 404 is classified as success; when the
first `endNow` round succeeds, no failure message is surfaced, and a second
`endNow` against the resulting state — whose deletes now all answer 404 —
returns the identical state and re-issues exactly the same delete requests
(no further side effects). -/
theorem idempotent_termination (s : PanelState) (auto : Bool)
    (resp1 resp2 : Nat → Resp)
    (h1 : ∀ id ∈ s.latestInstanceIds, isDeleteFailure (resp1 id) = false)
    (h2 : ∀ id ∈ s.latestInstanceIds, resp2 id = Resp.failure (some 404)) :
    isDeleteFailure (Resp.failure (some 404)) = false ∧
    (endNow s auto resp1).1.message
      ≠ "Some idle VMs failed to delete; please check the labs list." ∧
    endNow (endNow s auto resp1).1 auto resp2 = endNow s auto resp1 := by
  have h2f : ∀ id ∈ s.latestInstanceIds, isDeleteFailure (resp2 id) = false := by
    intro id hid
    rw [h2 id hid]
    rfl
  rw [endNow_noFail s auto resp1 h1]
  refine ⟨rfl, ?_, ?_⟩
  · dsimp only
    cases auto <;> decide
  · rw [endNow_noFail _ auto resp2 (by exact h2f)]

theorem natMax_eq_right {a b : Nat} (h : a ≤ b) : Nat.max a b = b :=
  Nat.max_eq_right h

theorem natMax_eq_left {a b : Nat} (h : b ≤ a) : Nat.max a b = a :=
  Nat.max_eq_left h

theorem activeIdleMinutes_set_activity (s : PanelState) (la st : Option Nat) :
    activeIdleMinutes { s with lastActivityAt := la, stored := st }
      = activeIdleMinutes s := rfl

theorem recordActivity_run (s : PanelState) (ts now m : Nat)
    (hsus : s.idleSuspended = false) (hpr : s.showIdlePrompt = false)
    (hmin : activeIdleMinutes s = some m) (hact : activeInstances s ≠ [])
    (hts : ts ≠ 0) :
    recordActivity s (some ts) now =
      { s with
        lastActivityAt := some ts, stored := some ts,
        idleStartsAt := some (ts + Nat.max 1 m * 60 * 1000),
        idleTimer := some (Nat.max now (ts + Nat.max 1 m * 60 * 1000),
          ts + Nat.max 1 m * 60 * 1000) } := by
  have h1 := activeIdleMinutes_pos s m hmin
  have hne : m ≠ 0 := by omega
  have htr : jsTruthy (activeIdleMinutes s) = true := by
    rw [hmin]; exact jsTruthy_of_pos h1
  have hD : ts + Nat.max 1 m * 60 * 1000 ≠ 0 := by omega
  unfold recordActivity
  rw [if_neg (by simp [hsus]), if_neg (by simp [hpr]), if_neg (by simp [hact, htr])]
  dsimp only
  rw [show jsOr (some ts) now = ts from by simp [jsOr, hts]]
  unfold updateIdleStartFromActivity
  rw [activeIdleMinutes_set_activity, hmin]
  rw [if_neg (by simp [jsTruthy, hne])]
  dsimp only
  rw [show jsOr (some m) 0 = m from by simp [jsOr, hne]]
  unfold scheduleIdleTimer
  dsimp only
  rw [if_neg (by simp [hsus]), if_neg (by simp [jsTruthy, hD])]
  rw [show jsOr (some (ts + Nat.max 1 m * 60 * 1000)) 0 = ts + Nat.max 1 m * 60 * 1000
    from by simp [jsOr, hD]]

/-- C1: with at least one active session, no suspension and no active
prompt, recording activity at time `ts` collapses all sessions to the single
deadline `ts + m` minutes, where `m` is the minimum of the resolved idle
timeouts of the active sessions (`m` is one of them and no session's timeout
is smaller), and arms the one idle timer to fire exactly at that deadline —
or immediately, when the deadline is already in the past. -/
theorem single_deadline_invariant (s : PanelState) (m ts now : Nat)
    (hsus : s.idleSuspended = false) (hpr : s.showIdlePrompt = false)
    (hact : activeInstances s ≠ []) (hmin : activeIdleMinutes s = some m)
    (hts : ts ≠ 0) :
    (recordActivity s (some ts) now).lastActivityAt = some ts ∧
    (recordActivity s (some ts) now).idleStartsAt = some (ts + m * 60 * 1000) ∧
    (now ≤ ts + m * 60 * 1000 →
      (recordActivity s (some ts) now).idleTimer
        = some (ts + m * 60 * 1000, ts + m * 60 * 1000)) ∧
    (ts + m * 60 * 1000 ≤ now →
      (recordActivity s (some ts) now).idleTimer = some (now, ts + m * 60 * 1000)) ∧
    m ∈ idleTimeouts s ∧ (∀ t ∈ idleTimeouts s, m ≤ t) := by
  have h1 := activeIdleMinutes_pos s m hmin
  obtain ⟨m2, hm2, _, hmem, hle⟩ := activeIdleMinutes_spec s hact
  rw [hmin, Option.some_inj] at hm2
  subst hm2
  have hmax : Nat.max 1 m = m := natMax_eq_right h1
  rw [recordActivity_run s ts now m hsus hpr hmin hact hts, hmax]
  refine ⟨rfl, rfl, ?_, ?_, hmem, hle⟩
  · intro h
    dsimp only
    rw [natMax_eq_right h]
  · intro h
    dsimp only
    rw [natMax_eq_left h]

theorem jsOr_some {t : Nat} (b : Nat) (h : t ≠ 0) : jsOr (some t) b = t := by
  simp [jsOr, h]

theorem updateCountdown_tick (s : PanelState) (now e d : Nat) (resp : Nat → Resp)
    (hshow : s.showIdlePrompt = true) (he : s.countdownEndsAt = some e)
    (hez : e ≠ 0) (hd : e - now = d * 1000) (hdz : d ≠ 0) :
    updateCountdown s now resp = ({ s with idleCountdown := some d }, []) := by
  unfold updateCountdown
  rw [if_neg (by simp [hshow]), if_neg (by simp [he, jsTruthy, hez])]
  dsimp only
  rw [he, jsOr_some 0 hez, remainingSeconds_diff _ _ _ hd, if_neg hdz]

theorem updateCountdown_expire (s : PanelState) (now e : Nat) (resp : Nat → Resp)
    (hshow : s.showIdlePrompt = true) (he : s.countdownEndsAt = some e)
    (hez : e ≠ 0) (hle : e ≤ now) :
    updateCountdown s now resp = endNow { s with idleCountdown := some 0 } true resp := by
  unfold updateCountdown
  rw [if_neg (by simp [hshow]), if_neg (by simp [he, jsTruthy, hez])]
  dsimp only
  rw [he, jsOr_some 0 hez, remainingSeconds_zero _ _ hle, if_pos rfl]

theorem endNow_noFail_proj (s : PanelState) (resp : Nat → Resp)
    (h : ∀ id ∈ s.latestInstanceIds, isDeleteFailure (resp id) = false) :
    (endNow s true resp).1.sessionEnded = true ∧
    (endNow s true resp).1.message = "Session ended due to inactivity." ∧
    (endNow s true resp).2 = s.latestInstanceIds.map Req.deleteReq := by
  rw [endNow_noFail s true resp h]
  exact ⟨rfl, rfl, rfl⟩

theorem startIdleCountdown_run (s : PanelState) (ids : List Nat) (t0 : Nat)
    (resp : Nat → Resp) (hids : ids ≠ []) (ht0 : t0 ≠ 0) :
    startIdleCountdown s (some t0) ids t0 resp =
      ({ s with
          latestInstanceIds := ids, showIdlePrompt := true, sessionEnded := false,
          countdownEndsAt := some (t0 + PROMPT_COUNTDOWN_SECONDS * 1000),
          idleCountdown := some PROMPT_COUNTDOWN_SECONDS,
          countdownRunning := true }, []) := by
  have htick := updateCountdown_tick
    { s with
      latestInstanceIds := ids, showIdlePrompt := true, sessionEnded := false,
      countdownEndsAt := some (t0 + PROMPT_COUNTDOWN_SECONDS * 1000),
      idleCountdown := some PROMPT_COUNTDOWN_SECONDS, countdownRunning := true }
    t0 (t0 + PROMPT_COUNTDOWN_SECONDS * 1000) PROMPT_COUNTDOWN_SECONDS resp
    rfl rfl (by omega) (by omega) (by decide)
  unfold startIdleCountdown
  rw [if_neg hids]
  dsimp only
  rw [jsOr_some _ ht0,
    remainingSeconds_diff (t0 + PROMPT_COUNTDOWN_SECONDS * 1000) t0
      PROMPT_COUNTDOWN_SECONDS (by omega)]
  exact htick

/-- C2: starting the countdown at `T0` shows the prompt, anchors its end at
`T0 + 300` seconds and fires nothing immediately; every 1-second
re-evaluation strictly before `T0 + 300s` fires nothing and keeps the prompt
with the exact remaining seconds; the re-evaluation at `T0 + 300s` reaches
zero and is an `endNow` with reason idle-timeout (inactivity message and the
delete requests) — so termination fires at `T0 + 300s`, never earlier. -/
theorem countdown_correctness (s : PanelState) (ids : List Nat) (t0 : Nat)
    (resp : Nat → Resp) (hids : ids ≠ []) (ht0 : t0 ≠ 0)
    (hok : ∀ id ∈ ids, isDeleteFailure (resp id) = false) :
    (startIdleCountdown s (some t0) ids t0 resp).2 = [] ∧
    (startIdleCountdown s (some t0) ids t0 resp).1.showIdlePrompt = true ∧
    (startIdleCountdown s (some t0) ids t0 resp).1.countdownEndsAt
      = some (t0 + PROMPT_COUNTDOWN_SECONDS * 1000) ∧
    (startIdleCountdown s (some t0) ids t0 resp).1.idleCountdown
      = some PROMPT_COUNTDOWN_SECONDS ∧
    (startIdleCountdown s (some t0) ids t0 resp).1.sessionEnded = false ∧
    (∀ k, k < PROMPT_COUNTDOWN_SECONDS →
      (updateCountdown (startIdleCountdown s (some t0) ids t0 resp).1
          (t0 + 1000 * k) resp).2 = [] ∧
      (updateCountdown (startIdleCountdown s (some t0) ids t0 resp).1
          (t0 + 1000 * k) resp).1.showIdlePrompt = true ∧
      (updateCountdown (startIdleCountdown s (some t0) ids t0 resp).1
          (t0 + 1000 * k) resp).1.idleCountdown
        = some (PROMPT_COUNTDOWN_SECONDS - k)) ∧
    ((updateCountdown (startIdleCountdown s (some t0) ids t0 resp).1
        (t0 + PROMPT_COUNTDOWN_SECONDS * 1000) resp).1.sessionEnded = true ∧
     (updateCountdown (startIdleCountdown s (some t0) ids t0 resp).1
        (t0 + PROMPT_COUNTDOWN_SECONDS * 1000) resp).1.message
       = "Session ended due to inactivity." ∧
     (updateCountdown (startIdleCountdown s (some t0) ids t0 resp).1
        (t0 + PROMPT_COUNTDOWN_SECONDS * 1000) resp).2 = ids.map Req.deleteReq) := by
  rw [startIdleCountdown_run s ids t0 resp hids ht0]
  dsimp only
  refine ⟨rfl, rfl, rfl, rfl, rfl, ?_, ?_⟩
  · intro k hk
    have htick := updateCountdown_tick
      { s with
        latestInstanceIds := ids, showIdlePrompt := true, sessionEnded := false,
        countdownEndsAt := some (t0 + PROMPT_COUNTDOWN_SECONDS * 1000),
        idleCountdown := some PROMPT_COUNTDOWN_SECONDS, countdownRunning := true }
      (t0 + 1000 * k) (t0 + PROMPT_COUNTDOWN_SECONDS * 1000)
      (PROMPT_COUNTDOWN_SECONDS - k) resp
      rfl rfl (by omega) (by omega) (by omega)
    rw [htick]
    exact ⟨rfl, rfl, rfl⟩
  · have hexp := updateCountdown_expire
      { s with
        latestInstanceIds := ids, showIdlePrompt := true, sessionEnded := false,
        countdownEndsAt := some (t0 + PROMPT_COUNTDOWN_SECONDS * 1000),
        idleCountdown := some PROMPT_COUNTDOWN_SECONDS, countdownRunning := true }
      (t0 + PROMPT_COUNTDOWN_SECONDS * 1000) (t0 + PROMPT_COUNTDOWN_SECONDS * 1000)
      resp rfl rfl (by omega) (le_refl _)
    rw [hexp]
    exact ⟨(endNow_noFail_proj _ resp (by exact hok)).1,
      (endNow_noFail_proj _ resp (by exact hok)).2.1,
      (endNow_noFail_proj _ resp (by exact hok)).2.2⟩

theorem ensureActivity_stored (s : PanelState) (now t0 : Nat)
    (hla : s.lastActivityAt = none) (hst : s.stored = some t0) (ht0 : t0 ≠ 0) :
    ensureActivityTimestamp s now = ({ s with lastActivityAt := some t0 }, t0) := by
  unfold ensureActivityTimestamp
  rw [hla, hst]
  rw [if_neg (by simp [jsTruthy])]
  dsimp only
  rw [jsOr_some _ ht0, if_pos (jsTruthy_of_pos (by omega))]

theorem updateIdleStart_eq (s : PanelState) (a m : Nat)
    (hm : activeIdleMinutes s = some m) (h1 : 1 ≤ m) :
    updateIdleStartFromActivity s a =
      { s with idleStartsAt := some (a + m * 60 * 1000) } := by
  have hne : m ≠ 0 := by omega
  unfold updateIdleStartFromActivity
  rw [hm, if_neg (by simp [jsTruthy, hne])]
  dsimp only
  rw [jsOr_some _ hne, natMax_eq_right h1]

theorem scheduleIdleTimer_eq (s : PanelState) (now d : Nat)
    (hsus : s.idleSuspended = false) (hd : s.idleStartsAt = some d) (hdz : d ≠ 0) :
    scheduleIdleTimer s now = { s with idleTimer := some (Nat.max now d, d) } := by
  unfold scheduleIdleTimer
  dsimp only
  rw [hd, if_neg (by simp [hsus]), if_neg (by simp [jsTruthy, hdz])]
  rw [jsOr_some _ hdz]

theorem updateCountdown_live (s : PanelState) (now e : Nat) (resp : Nat → Resp)
    (hshow : s.showIdlePrompt = true) (he : s.countdownEndsAt = some e)
    (hez : e ≠ 0) (hlt : now < e) :
    updateCountdown s now resp
      = ({ s with idleCountdown := some (remainingSeconds e now) }, []) := by
  unfold updateCountdown
  rw [if_neg (by simp [hshow]), if_neg (by simp [he, jsTruthy, hez])]
  dsimp only
  rw [he, jsOr_some 0 hez, if_neg (remainingSeconds_pos e now hlt)]

theorem deleteInstances_proj (s : PanelState) (ids : List Nat) (reason : String)
    (keep : Bool) (resp : Nat → Resp) :
    (deleteInstances s ids reason keep resp).1.sessionEnded = s.sessionEnded ∧
    (deleteInstances s ids reason keep resp).1.lastActivityAt = s.lastActivityAt := by
  unfold deleteInstances
  split
  · exact ⟨rfl, rfl⟩
  · dsimp only
    split
    · exact ⟨rfl, rfl⟩
    · split
      · split
        · exact ⟨rfl, rfl⟩
        · exact ⟨rfl, rfl⟩
      · exact ⟨rfl, rfl⟩

theorem endNow_proj (s : PanelState) (auto : Bool) (resp : Nat → Resp) :
    (endNow s auto resp).1.sessionEnded = true ∧
    (endNow s auto resp).1.lastActivityAt = s.lastActivityAt := by
  unfold endNow
  dsimp only
  rw [clearIdleTimers_true, clearIdlePrompt_eq]
  dsimp only
  exact ⟨(deleteInstances_proj _ _ _ _ _).1.trans rfl,
    (deleteInstances_proj _ _ _ _ _).2.trans rfl⟩

theorem suspendIdle_writes (s : PanelState) (t : Nat) (ht : t ≠ 0) :
    (suspendIdle s t).lastActivityAt = some t ∧ (suspendIdle s t).stored = some t := by
  unfold suspendIdle clearIdleTimers clearIdlePrompt updateIdleStartFromActivity
  dsimp only
  split_ifs <;> simp_all

theorem activeInstances_set_suspended (s : PanelState) (b : Bool) :
    activeInstances { s with idleSuspended := b } = activeInstances s := rfl

theorem activeIdleMinutes_set_suspended (s : PanelState) (b : Bool) :
    activeIdleMinutes { s with idleSuspended := b } = activeIdleMinutes s := rfl

theorem resumeIdle_writes (s : PanelState) (ts : Option Nat) (now : Nat)
    (hact : activeInstances s ≠ []) :
    (resumeIdle s ts now).lastActivityAt = some (jsOr ts now) ∧
    (resumeIdle s ts now).stored = some (jsOr ts now) := by
  obtain ⟨m, hm, h1, _, _⟩ := activeIdleMinutes_spec s hact
  have htr : jsTruthy (activeIdleMinutes s) = true := by
    rw [hm]; exact jsTruthy_of_pos h1
  unfold resumeIdle
  dsimp only
  rw [if_neg (by simp [activeInstances_set_suspended, activeIdleMinutes_set_suspended,
    hact, htr])]
  obtain h2 | h2 := updateIdleStart_cases
    { s with
      idleSuspended := false, lastActivityAt := some (jsOr ts now),
      stored := some (jsOr ts now) } (jsOr ts now)
  · rw [h2]
    obtain ⟨tm, h3⟩ := scheduleIdleTimer_cases _ now
    rw [h3]
    exact ⟨rfl, rfl⟩
  · rw [h2]
    obtain ⟨tm, h3⟩ := scheduleIdleTimer_cases _ now
    rw [h3]
    exact ⟨rfl, rfl⟩

theorem recordActivity_persist (s : PanelState) (ts : Option Nat) (now : Nat) :
    recordActivity s ts now = s ∨
    ((recordActivity s ts now).lastActivityAt = some (jsOr ts now) ∧
     (recordActivity s ts now).stored = some (jsOr ts now)) := by
  by_cases h1 : s.idleSuspended = true
  · left; simp [recordActivity, h1]
  · have h1f : s.idleSuspended = false := by simpa using h1
    by_cases h2 : s.showIdlePrompt = true
    · left; simp [recordActivity, h1, h2]
    · have h2f : s.showIdlePrompt = false := by simpa using h2
      by_cases h3 : activeInstances s = []
      · left; exact recordActivity_bail s ts now h3
      · right
        obtain ⟨a, b, _, _⟩ := recordActivity_not_blocked s ts now h1f h2f h3
        exact ⟨a, b⟩

theorem startIdleCountdown_pre (s : PanelState) (d : Nat) (ids : List Nat)
    (now : Nat) (resp : Nat → Resp) (hids : ids ≠ []) (hd : d ≠ 0) :
    startIdleCountdown s (some d) ids now resp =
      updateCountdown
        { s with
          latestInstanceIds := ids, showIdlePrompt := true, sessionEnded := false,
          countdownEndsAt := some (d + PROMPT_COUNTDOWN_SECONDS * 1000),
          idleCountdown :=
            some (remainingSeconds (d + PROMPT_COUNTDOWN_SECONDS * 1000) now),
          countdownRunning := true } now resp := by
  unfold startIdleCountdown
  rw [if_neg hids]
  dsimp only
  rw [jsOr_some _ hd]

/-- C8: every path that updates the activity timestamp (`recordActivity`,
`suspendIdle`, `resumeIdle`) writes the same value to the session-scoped
storage slot, and after a reload (no in-memory timestamp, a stored one) with
active sessions, `syncIdleState` recomputes the deadline as the stored
`lastActivityAt` plus the minimum idle timeout — not as reload time plus the
timeout: if that deadline is still ahead the timer is armed for it exactly;
if it has passed the prompt countdown is entered anchored at the stored
deadline; and if even the grace period has passed the session ends at once. -/
theorem persisted_deadline_reload (s : PanelState) (t0 m now : Nat)
    (resp : Nat → Resp)
    (hla : s.lastActivityAt = none) (hst : s.stored = some t0) (ht0 : t0 ≠ 0)
    (hsus : s.idleSuspended = false) (hpr : s.showIdlePrompt = false)
    (hact : activeInstances s ≠ []) (hmin : activeIdleMinutes s = some m)
    (hids : s.latestInstanceIds ≠ []) :
    (∀ (s2 : PanelState) (ts2 : Option Nat) (n2 : Nat),
        recordActivity s2 ts2 n2 = s2 ∨
        ((recordActivity s2 ts2 n2).lastActivityAt = some (jsOr ts2 n2) ∧
         (recordActivity s2 ts2 n2).stored = some (jsOr ts2 n2))) ∧
    (∀ (s2 : PanelState) (t2 : Nat), t2 ≠ 0 →
        (suspendIdle s2 t2).lastActivityAt = some t2 ∧
        (suspendIdle s2 t2).stored = some t2) ∧
    (∀ (s2 : PanelState) (ts2 : Option Nat) (n2 : Nat), activeInstances s2 ≠ [] →
        (resumeIdle s2 ts2 n2).lastActivityAt = some (jsOr ts2 n2) ∧
        (resumeIdle s2 ts2 n2).stored = some (jsOr ts2 n2)) ∧
    (syncIdleState s now resp).1.lastActivityAt = some t0 ∧
    (now < t0 + m * 60 * 1000 →
      (syncIdleState s now resp).1.idleStartsAt = some (t0 + m * 60 * 1000) ∧
      (syncIdleState s now resp).1.idleTimer
        = some (t0 + m * 60 * 1000, t0 + m * 60 * 1000) ∧
      (syncIdleState s now resp).1.showIdlePrompt = false) ∧
    (t0 + m * 60 * 1000 ≤ now →
      now < t0 + m * 60 * 1000 + PROMPT_COUNTDOWN_SECONDS * 1000 →
      (syncIdleState s now resp).1.showIdlePrompt = true ∧
      (syncIdleState s now resp).1.countdownEndsAt
        = some (t0 + m * 60 * 1000 + PROMPT_COUNTDOWN_SECONDS * 1000)) ∧
    (t0 + m * 60 * 1000 + PROMPT_COUNTDOWN_SECONDS * 1000 ≤ now →
      (syncIdleState s now resp).1.sessionEnded = true) := by
  have h1 := activeIdleMinutes_pos s m hmin
  have htr : jsTruthy (activeIdleMinutes s) = true := by
    rw [hmin]; exact jsTruthy_of_pos h1
  have hDz : t0 + m * 60 * 1000 ≠ 0 := by omega
  refine ⟨fun s2 ts2 n2 => recordActivity_persist s2 ts2 n2,
    fun s2 t2 ht2 => suspendIdle_writes s2 t2 ht2,
    fun s2 ts2 n2 h => resumeIdle_writes s2 ts2 n2 h, ?_⟩
  have hsync0 : syncIdleState s now resp =
      if jsTruthy (some (t0 + m * 60 * 1000)) = true
          ∧ jsOr (some (t0 + m * 60 * 1000)) 0 ≤ now then
        startIdleCountdown
          { s with
            lastActivityAt := some t0, idleStartsAt := some (t0 + m * 60 * 1000) }
          (some (t0 + m * 60 * 1000)) s.latestInstanceIds now resp
      else
        (scheduleIdleTimer
          { s with
            lastActivityAt := some t0, idleStartsAt := some (t0 + m * 60 * 1000) }
          now, []) := by
    unfold syncIdleState
    rw [if_neg (by simp [hsus]), if_neg (by simp [hpr]), if_neg (by simp [hact, htr])]
    rw [ensureActivity_stored s now t0 hla hst ht0]
    dsimp only
    rw [updateIdleStart_eq { s with lastActivityAt := some t0 } t0 m (by exact hmin) h1]
  by_cases hc : t0 + m * 60 * 1000 ≤ now
  · rw [if_pos ⟨jsTruthy_of_pos (by omega), by rw [jsOr_some _ hDz]; exact hc⟩] at hsync0
    rw [startIdleCountdown_pre _ _ _ _ _ hids hDz] at hsync0
    dsimp only at hsync0
    by_cases he : now < t0 + m * 60 * 1000 + PROMPT_COUNTDOWN_SECONDS * 1000
    · rw [updateCountdown_live
        { s with
          lastActivityAt := some t0, idleStartsAt := some (t0 + m * 60 * 1000),
          latestInstanceIds := s.latestInstanceIds, showIdlePrompt := true,
          sessionEnded := false,
          countdownEndsAt := some (t0 + m * 60 * 1000 + PROMPT_COUNTDOWN_SECONDS * 1000),
          idleCountdown := some (remainingSeconds
            (t0 + m * 60 * 1000 + PROMPT_COUNTDOWN_SECONDS * 1000) now),
          countdownRunning := true }
        now (t0 + m * 60 * 1000 + PROMPT_COUNTDOWN_SECONDS * 1000) resp
        rfl rfl (by omega) he] at hsync0
      rw [hsync0]
      refine ⟨rfl, fun hl => absurd hc (by omega), fun _ _ => ⟨rfl, rfl⟩,
        fun hg => absurd he (by omega)⟩
    · rw [updateCountdown_expire
        { s with
          lastActivityAt := some t0, idleStartsAt := some (t0 + m * 60 * 1000),
          latestInstanceIds := s.latestInstanceIds, showIdlePrompt := true,
          sessionEnded := false,
          countdownEndsAt := some (t0 + m * 60 * 1000 + PROMPT_COUNTDOWN_SECONDS * 1000),
          idleCountdown := some (remainingSeconds
            (t0 + m * 60 * 1000 + PROMPT_COUNTDOWN_SECONDS * 1000) now),
          countdownRunning := true }
        now (t0 + m * 60 * 1000 + PROMPT_COUNTDOWN_SECONDS * 1000) resp
        rfl rfl (by omega) (by omega)] at hsync0
      rw [hsync0]
      refine ⟨(endNow_proj _ true resp).2.trans rfl,
        fun hl => absurd hc (by omega),
        fun _ hg => absurd hg (by omega),
        fun _ => (endNow_proj _ true resp).1⟩
  · rw [if_neg (by rw [jsOr_some _ hDz]; intro h; exact hc h.2)] at hsync0
    rw [scheduleIdleTimer_eq
      { s with
        lastActivityAt := some t0, idleStartsAt := some (t0 + m * 60 * 1000) }
      now (t0 + m * 60 * 1000) (by exact hsus) rfl hDz] at hsync0
    rw [hsync0]
    refine ⟨rfl, fun hl => ?_, fun hg => absurd hg hc,
      fun hg => absurd (show t0 + m * 60 * 1000 ≤ now by omega) hc⟩
    refine ⟨rfl, ?_, hpr⟩
    dsimp only
    rw [natMax_eq_right (by omega)]

theorem resumeIdle_deadline (s : PanelState) (ts2 now2 m : Nat)
    (hact : activeInstances s ≠ []) (hm : activeIdleMinutes s = some m)
    (hts : ts2 ≠ 0) :
    (resumeIdle s (some ts2) now2).idleStartsAt = some (ts2 + m * 60 * 1000) ∧
    (resumeIdle s (some ts2) now2).idleSuspended = false := by
  have h1 := activeIdleMinutes_pos s m hm
  have htr : jsTruthy (activeIdleMinutes s) = true := by
    rw [hm]; exact jsTruthy_of_pos h1
  unfold resumeIdle
  dsimp only
  rw [if_neg (by simp [activeInstances_set_suspended, activeIdleMinutes_set_suspended,
    hact, htr])]
  rw [jsOr_some _ hts]
  rw [updateIdleStart_eq
    { s with idleSuspended := false, lastActivityAt := some ts2, stored := some ts2 }
    ts2 m (by exact hm) h1]
  obtain ⟨tm, h3⟩ := scheduleIdleTimer_cases _ now2
  rw [h3]
  exact ⟨rfl, rfl⟩

/-- C3 counterexample: starting from a console focus at t=7000 (suspension
established), a dashboard mouse move at t=8000 lifts the suspension and
re-arms the idle timer, and its firing at t=608000 shows the prompt — with
no console blur anywhere in the trace.  So, as stated, "no idle prompt
appears ... until a blur event from that console is observed" is false: the
dashboard-local activity and focus handlers (part_001 lines 434-485) clear
the suspension without any vm blur. -/
theorem focus_then_local_activity_counterexample :
    (stepAll (step sample0 (Event.message (InMsg.idleFocus "vm" (some 7000)) 7000 respOk))
        [Event.localActivity false 8000 respOk,
         Event.timerFire 608000 respOk]).showIdlePrompt = true ∧
    isVmBlurEvent (Event.localActivity false 8000 respOk) = false ∧
    isVmBlurEvent (Event.timerFire 608000 respOk) = false := by
  decide

/-- C3 (amended): a console-tagged (`source = "vm"`) focus message suspends
the idle clock: as long as any sequence of timer firings, countdown ticks,
`syncIdleState` passes, console messages and dashboard events contains no
console blur message and no dashboard-local wake event (visible-page
activity signal or window focus), the idle prompt never shows — regardless
of the wall-clock times the events carry; and a console blur, with active
sessions present, lifts suspension and anchors the new deadline at the blur
timestamp plus the minimum idle timeout. -/
theorem focus_suspension (s : PanelState) (ts now : Nat) (respF : Nat → Resp)
    (evs : List Event)
    (hnb : ∀ e ∈ evs, isVmBlurEvent e = false ∧ isDashboardWake e = false) :
    (stepAll (step s (Event.message (InMsg.idleFocus "vm" (some ts)) now respF))
        evs).showIdlePrompt = false ∧
    (∀ (s2 : PanelState) (ts2 now2 : Nat) (resp2 : Nat → Resp) (m2 : Nat),
      activeInstances s2 ≠ [] → ts2 ≠ 0 → activeIdleMinutes s2 = some m2 →
      (step s2 (Event.message (InMsg.idleBlur "vm" (some ts2)) now2 resp2)).idleStartsAt
          = some (ts2 + m2 * 60 * 1000) ∧
      (step s2 (Event.message
          (InMsg.idleBlur "vm" (some ts2)) now2 resp2)).idleSuspended = false) := by
  constructor
  · have hq : suspendedQuiet
        (step s (Event.message (InMsg.idleFocus "vm" (some ts)) now respF)) := by
      have hs : step s (Event.message (InMsg.idleFocus "vm" (some ts)) now respF)
          = suspendIdle s ts := by
        simp [step, handleMessage, finOr]
      rw [hs]
      exact suspendIdle_quiet s ts
    exact (stepAll_preserves_quiet _ evs hq hnb).2.1
  · intro s2 ts2 now2 resp2 m2 hact2 hts2 hm2
    have hstep : step s2 (Event.message (InMsg.idleBlur "vm" (some ts2)) now2 resp2)
        = resumeIdle s2 (some ts2) now2 := by
      simp [step, handleMessage, finOr]
    rw [hstep]
    exact resumeIdle_deadline s2 ts2 now2 m2 hact2 hm2 hts2

theorem activeIdleMinutes_ne_nil (s : PanelState) (m : Nat)
    (h : activeIdleMinutes s = some m) : activeInstances s ≠ [] := by
  intro hact
  simp [activeIdleMinutes, hact] at h

theorem deleteInstances_stored (s : PanelState) (ids : List Nat) (reason : String)
    (keep : Bool) (resp : Nat → Resp) :
    (deleteInstances s ids reason keep resp).1.stored = s.stored := by
  unfold deleteInstances
  split
  · rfl
  · dsimp only
    split
    · rfl
    · split
      · split
        · rfl
        · rfl
      · rfl

theorem endNow_stored (s : PanelState) (auto : Bool) (resp : Nat → Resp) :
    (endNow s auto resp).1.stored = s.stored := by
  unfold endNow
  dsimp only
  rw [clearIdleTimers_true, clearIdlePrompt_eq]
  dsimp only
  exact (deleteInstances_stored _ _ _ _ _).trans rfl

theorem startIdleCountdown_keeps (s : PanelState) (d : Option Nat) (ids : List Nat)
    (now : Nat) (resp : Nat → Resp) :
    (startIdleCountdown s d ids now resp).1.lastActivityAt = s.lastActivityAt ∧
    (startIdleCountdown s d ids now resp).1.stored = s.stored := by
  unfold startIdleCountdown
  split
  · exact ⟨rfl, rfl⟩
  · dsimp only
    unfold updateCountdown
    split
    · exact ⟨rfl, rfl⟩
    · split
      · exact ⟨rfl, rfl⟩
      · dsimp only
        split
        · exact ⟨(endNow_proj _ _ _).2.trans rfl, (endNow_stored _ _ _).trans rfl⟩
        · exact ⟨rfl, rfl⟩

theorem onActivity_prompt_keeps_activity (s : PanelState) (hidden : Bool)
    (now : Nat) (resp : Nat → Resp) (hp : s.showIdlePrompt = true) :
    (onActivity s hidden now resp).1.lastActivityAt = s.lastActivityAt ∧
    (onActivity s hidden now resp).1.stored = s.stored := by
  unfold onActivity
  split
  · exact ⟨rfl, rfl⟩
  · split
    · exact ⟨rfl, rfl⟩
    · split
      · have h5 := recordActivity_prompt_noop { s with idleSuspended := false }
          (some now) now (by exact hp)
        rw [h5]
        exact ⟨rfl, rfl⟩
      · dsimp only
        by_cases hLA : jsTruthy (if jsTruthy s.lastActivityAt = true
            then s.lastActivityAt else s.stored) = true
        · rw [if_pos hLA]
          by_cases hdl : jsOr (if jsTruthy s.lastActivityAt = true
              then s.lastActivityAt else s.stored) 0
              + Nat.max 1 (jsOr (activeIdleMinutes s) 0) * 60 * 1000 ≤ now
          · rw [if_pos hdl]
            exact ⟨(startIdleCountdown_keeps _ _ _ _ _).1.trans rfl,
              (startIdleCountdown_keeps _ _ _ _ _).2.trans rfl⟩
          · rw [if_neg hdl, recordActivity_prompt_noop s none now hp]
            exact ⟨rfl, rfl⟩
        · rw [if_neg hLA, recordActivity_prompt_noop s none now hp]
          exact ⟨rfl, rfl⟩

/-- C4 counterexample, two violations of the claim as stated.  First, a
qualifying activity signal during an active prompt does NOT leave the idle
deadline and countdown end unchanged: in `promptStale` the prompt's
remembered deadline predates a drop of the active minimum (a 10-minute
instance joined after the prompt was anchored on 30 minutes), and a mouse
move at t=1900000 re-anchors to the recomputed stored deadline and
immediately fires `endNow` — deadline and countdown end change and the
session terminates.  Second, `continueSession` with the active list drained
clears prompt and suspension but does NOT reset `lastActivityAt` to now. -/
theorem prompt_activity_counterexample :
    promptStale.showIdlePrompt = true ∧
    promptStale.countdownEndsAt = some 2101000 ∧
    (onActivity promptStale false 1900000 resp404).1.countdownEndsAt
      ≠ promptStale.countdownEndsAt ∧
    (onActivity promptStale false 1900000 resp404).1.idleStartsAt
      ≠ promptStale.idleStartsAt ∧
    (onActivity promptStale false 1900000 resp404).1.sessionEnded = true ∧
    (onActivity promptStale false 1900000 resp404).2
      = [Req.deleteReq 11, Req.deleteReq 12] ∧
    (continueSession promptNoActive 2000).showIdlePrompt = false ∧
    (continueSession promptNoActive 2000).idleSuspended = false ∧
    (continueSession promptNoActive 2000).lastActivityAt = some 1000 ∧
    (continueSession promptNoActive 2000).lastActivityAt ≠ some 2000 := by
  decide

/-- C4 (amended): while the idle prompt is active, `recordActivity` is a
complete no-op, and a qualifying dashboard activity signal (the registered
`onActivity` handler) never changes `lastActivityAt` or the stored
timestamp; as long as the remembered deadline and countdown end are still
consistent with the current active minimum and the grace period has not
expired, such a signal also leaves the idle deadline and the countdown end
unchanged with the prompt still shown (when the minimum changed meanwhile it
may re-anchor them or even end the session); `continueSession` always clears
the prompt and the suspension flag, and resets `lastActivityAt` to now
whenever at least one active session remains. -/
theorem prompt_active_frame_effect (s : PanelState) (ts : Option Nat)
    (L m now now2 now3 : Nat) (resp : Nat → Resp) (hidden : Bool)
    (hp : s.showIdlePrompt = true) :
    recordActivity s ts now = s ∧
    (onActivity s hidden now3 resp).1.lastActivityAt = s.lastActivityAt ∧
    (onActivity s hidden now3 resp).1.stored = s.stored ∧
    (s.idleSuspended = false → s.lastActivityAt = some L → L ≠ 0 →
      activeIdleMinutes s = some m →
      s.idleStartsAt = some (L + m * 60 * 1000) →
      s.countdownEndsAt = some (L + m * 60 * 1000 + PROMPT_COUNTDOWN_SECONDS * 1000) →
      now3 < L + m * 60 * 1000 + PROMPT_COUNTDOWN_SECONDS * 1000 →
      (onActivity s false now3 resp).1.idleStartsAt = s.idleStartsAt ∧
      (onActivity s false now3 resp).1.countdownEndsAt = s.countdownEndsAt ∧
      (onActivity s false now3 resp).1.showIdlePrompt = true) ∧
    (continueSession s now2).showIdlePrompt = false ∧
    (continueSession s now2).idleSuspended = false ∧
    (activeInstances s ≠ [] → (continueSession s now2).lastActivityAt = some now2) := by
  obtain ⟨hkla, hkst⟩ := onActivity_prompt_keeps_activity s hidden now3 resp hp
  refine ⟨recordActivity_prompt_noop s ts now hp, hkla, hkst, ?_, ?_, ?_, ?_⟩
  · intro hsus hla hL hmin hstart hce hnow3
    have h1 := activeIdleMinutes_pos s m hmin
    have htr : jsTruthy (activeIdleMinutes s) = true := by
      rw [hmin]; exact jsTruthy_of_pos h1
    have hact := activeIdleMinutes_ne_nil s m hmin
    have hjt : jsTruthy (some L) = true := jsTruthy_of_pos (by omega)
    unfold onActivity
    rw [if_neg (by simp), if_neg (by simp [hact, htr]), if_neg (by simp [hsus])]
    dsimp only
    rw [hla, if_pos hjt, if_pos hjt]
    rw [jsOr_some 0 hL, hmin, jsOr_some 0 (by omega), natMax_eq_right h1]
    by_cases hge : L + m * 60 * 1000 ≤ now3
    · rw [if_pos hge]
      by_cases hids : s.latestInstanceIds = []
      · unfold startIdleCountdown
        rw [if_pos hids]
        exact ⟨hstart.symm, rfl, hp⟩
      · rw [startIdleCountdown_pre _ _ _ _ _ hids (by omega)]
        dsimp only
        rw [updateCountdown_live
          { s with
            idleStartsAt := some (L + m * 60 * 1000), lastActivityAt := some L,
            latestInstanceIds := s.latestInstanceIds, showIdlePrompt := true,
            sessionEnded := false,
            countdownEndsAt :=
              some (L + m * 60 * 1000 + PROMPT_COUNTDOWN_SECONDS * 1000),
            idleCountdown := some (remainingSeconds
              (L + m * 60 * 1000 + PROMPT_COUNTDOWN_SECONDS * 1000) now3),
            countdownRunning := true }
          now3 (L + m * 60 * 1000 + PROMPT_COUNTDOWN_SECONDS * 1000) resp
          rfl rfl (by omega) hnow3]
        exact ⟨hstart.symm, hce.symm, rfl⟩
    · rw [if_neg hge]
      rw [recordActivity_prompt_noop s none now3 hp]
      exact ⟨rfl, rfl, hp⟩
  · exact (recordActivity_char _ none now2 rfl rfl).1
  · exact (recordActivity_char _ none now2 rfl rfl).2.1
  · intro h
    exact (recordActivity_char _ none now2 rfl rfl).2.2 h

/-- Witness for C1 at a concrete panel: two active sessions with timeouts 30
and 10 minutes; recording activity at t=5000 anchors the deadline 10 minutes
later and arms the timer for it. -/
theorem single_deadline_invariant_witness :
    activeIdleMinutes sample0 = some 10 ∧
    (recordActivity sample0 (some 5000) 5000).lastActivityAt = some 5000 ∧
    (recordActivity sample0 (some 5000) 5000).idleStartsAt
      = some (5000 + 10 * 60 * 1000) ∧
    (recordActivity sample0 (some 5000) 5000).idleTimer
      = some (5000 + 10 * 60 * 1000, 5000 + 10 * 60 * 1000) :=
  ⟨by decide,
   (single_deadline_invariant sample0 10 5000 5000 rfl rfl (by decide) (by decide)
      (by decide)).1,
   (single_deadline_invariant sample0 10 5000 5000 rfl rfl (by decide) (by decide)
      (by decide)).2.1,
   (single_deadline_invariant sample0 10 5000 5000 rfl rfl (by decide) (by decide)
      (by decide)).2.2.1 (by decide)⟩

/-- Witness for C2 at a concrete prompt start `T0 = 600000`: the countdown
end is anchored 300 seconds later and the tick at `T0 + 300s` issues the
delete requests. -/
theorem countdown_correctness_witness :
    (startIdleCountdown sample0 (some 600000) [11, 12] 600000 resp404).1.countdownEndsAt
      = some (600000 + PROMPT_COUNTDOWN_SECONDS * 1000) ∧
    (updateCountdown (startIdleCountdown sample0 (some 600000) [11, 12] 600000 resp404).1
        (600000 + PROMPT_COUNTDOWN_SECONDS * 1000) resp404).2
      = [11, 12].map Req.deleteReq :=
  ⟨(countdown_correctness sample0 [11, 12] 600000 resp404 (by decide) (by decide)
      (by decide)).2.2.1,
   (countdown_correctness sample0 [11, 12] 600000 resp404 (by decide) (by decide)
      (by decide)).2.2.2.2.2.2.2.2⟩

/-- Witness for C3: after a console focus at t=7000, a tick, a sync pass, a
console activity message and a stale timer firing — arbitrarily far in the
future — leave the prompt hidden; a console blur at t=8000 re-anchors the
deadline at 8000 plus the 10-minute minimum. -/
theorem focus_suspension_witness :
    (stepAll (step sample0 (Event.message (InMsg.idleFocus "vm" (some 7000)) 7000 respOk))
        [Event.countdownTick 999999 respOk, Event.syncEvent 123456789 respOk,
         Event.message (InMsg.idleActivity "vm" (some 777)) 778 respOk,
         Event.timerFire 999999999 respOk]).showIdlePrompt = false ∧
    (step { sample0 with idleSuspended := true }
        (Event.message (InMsg.idleBlur "vm" (some 8000)) 8000 respOk)).idleStartsAt
      = some (8000 + 10 * 60 * 1000) :=
  ⟨(focus_suspension sample0 7000 7000 respOk
      [Event.countdownTick 999999 respOk, Event.syncEvent 123456789 respOk,
       Event.message (InMsg.idleActivity "vm" (some 777)) 778 respOk,
       Event.timerFire 999999999 respOk] (by decide)).1,
   ((focus_suspension sample0 7000 7000 respOk [] (by decide)).2
      { sample0 with idleSuspended := true } 8000 8000 respOk 10
      (by decide) (by decide) (by decide)).1⟩

/-- Witness for C4 (amended) with the prompt active over a non-empty active
set and a deadline consistent with the current 10-minute minimum: a raw
activity record is a strict no-op, a dashboard activity signal at t=700000
keeps the activity timestamp, the countdown end and the prompt, and continue
resets the clock to now. -/
theorem prompt_active_frame_effect_witness :
    promptWithActive.showIdlePrompt = true ∧
    recordActivity promptWithActive (some 7777) 8000 = promptWithActive ∧
    (onActivity promptWithActive false 700000 respOk).1.lastActivityAt
      = promptWithActive.lastActivityAt ∧
    (onActivity promptWithActive false 700000 respOk).1.countdownEndsAt
      = promptWithActive.countdownEndsAt ∧
    (onActivity promptWithActive false 700000 respOk).1.showIdlePrompt = true ∧
    (continueSession promptWithActive 9000).showIdlePrompt = false ∧
    (continueSession promptWithActive 9000).idleSuspended = false ∧
    (continueSession promptWithActive 9000).lastActivityAt = some 9000 :=
  ⟨rfl,
   (prompt_active_frame_effect promptWithActive (some 7777) 5000 10 8000 9000 700000
      respOk false rfl).1,
   (prompt_active_frame_effect promptWithActive (some 7777) 5000 10 8000 9000 700000
      respOk false rfl).2.1,
   ((prompt_active_frame_effect promptWithActive (some 7777) 5000 10 8000 9000 700000
      respOk false rfl).2.2.2.1 rfl rfl (by decide) (by decide) (by decide) (by decide)
      (by decide)).2.1,
   ((prompt_active_frame_effect promptWithActive (some 7777) 5000 10 8000 9000 700000
      respOk false rfl).2.2.2.1 rfl rfl (by decide) (by decide) (by decide) (by decide)
      (by decide)).2.2,
   (prompt_active_frame_effect promptWithActive (some 7777) 5000 10 8000 9000 700000
      respOk false rfl).2.2.2.2.1,
   (prompt_active_frame_effect promptWithActive (some 7777) 5000 10 8000 9000 700000
      respOk false rfl).2.2.2.2.2.1,
   (prompt_active_frame_effect promptWithActive (some 7777) 5000 10 8000 9000 700000
      respOk false rfl).2.2.2.2.2.2 (by decide)⟩

/-- Witness for C5: a first successful `endNow` round followed by a second
whose deletes all answer 404 is a no-op re-issuing the same requests. -/
theorem idempotent_termination_witness :
    isDeleteFailure (Resp.failure (some 404)) = false ∧
    (endNow sample0 true respOk).1.message
      ≠ "Some idle VMs failed to delete; please check the labs list." ∧
    endNow (endNow sample0 true respOk).1 true resp404 = endNow sample0 true respOk :=
  idempotent_termination sample0 true respOk resp404 (by decide) (by decide)

/-- Witness for C8 at a concrete reload: stored activity at t=60000, reload
sync at t=100000 recomputes the deadline as 660000 — not 100000 plus the
timeout — and arms the timer for exactly that instant. -/
theorem persisted_deadline_reload_witness :
    (syncIdleState reloaded 100000 respOk).1.lastActivityAt = some 60000 ∧
    (syncIdleState reloaded 100000 respOk).1.idleStartsAt
      = some (60000 + 10 * 60 * 1000) ∧
    (syncIdleState reloaded 100000 respOk).1.idleTimer
      = some (60000 + 10 * 60 * 1000, 60000 + 10 * 60 * 1000) :=
  ⟨(persisted_deadline_reload reloaded 60000 10 100000 respOk rfl rfl (by decide)
      rfl rfl (by decide) (by decide) (by decide)).2.2.2.1,
   ((persisted_deadline_reload reloaded 60000 10 100000 respOk rfl rfl (by decide)
      rfl rfl (by decide) (by decide) (by decide)).2.2.2.2.1 (by decide)).1,
   ((persisted_deadline_reload reloaded 60000 10 100000 respOk rfl rfl (by decide)
      rfl rfl (by decide) (by decide) (by decide)).2.2.2.2.1 (by decide)).2.1⟩

/-- Witness for C9: a template id absent from the list resolves to the
30-minute default, and the deadline offset applies the floor of one minute
to the 10-minute minimum. -/
theorem effective_timeout_floor_witness :
    templateIdleMinutes sample0 99 = 30 ∧
    1 ≤ templateIdleMinutes sample0 99 ∧
    (updateIdleStartFromActivity sample0 1000).idleStartsAt
      = some (1000 + Nat.max 1 10 * 60 * 1000) :=
  ⟨(effective_timeout_floor sample0 99 ⟨3, none⟩ 1000 10).1 (by decide),
   (effective_timeout_floor sample0 99 ⟨3, none⟩ 1000 10).2.2.1,
   ((effective_timeout_floor sample0 99 ⟨3, none⟩ 1000 10).2.2.2 (by decide)).2.1⟩

/-- Witness for C10: a running instance is in the tracked set, and with the
tracked ids synced to the active set, `endNow` deletes exactly those two
instances. -/
theorem tracked_set_running_pending_witness :
    (instA ∈ activeInstances sample0 ↔
      instA ∈ sample0.instances ∧
        (instA.status = Status.running ∨ instA.status = Status.pending)) ∧
    (endNow sample0 true respOk).2
      = ((activeInstances sample0).map Instance.id).map Req.deleteReq :=
  ⟨(tracked_set_running_pending sample0 instA true respOk).1,
   (tracked_set_running_pending sample0 instA true respOk).2.2.2 (by decide)⟩

end BretterLabs
